import Mathlib

/-!
Verification development for `pyvizio/_api/apps.py` (Vizio SmartCast app
commands): a shallow embedding of the data model and operations of the module,
followed by theorems about app catalog lookup, launch-command construction,
and response parsing.

Python values flowing through this module are stratified by how the code
accesses them: scalar JSON values (`Scalar`), the possible contents of the
`VALUE` field (`JValue`), the possible contents of the `ITEM` field
(`JItem`), and the top-level response object (`Response`).  Fallible Python
code (a `TypeError` from keyword-argument unpacking, an `AttributeError`
from `.items()` on a non-mapping) is embedded as `Except PyErr`.
-/

/-- Python exceptions that the embedded code can raise. -/
inductive PyErr where
  | typeError
  | attributeError
deriving Repr, DecidableEq

/-- A scalar JSON/Python value: `None`, an `int`, or a `str`.  Catalog
configs and parsed app-config fields only ever hold these.  Equality is
type-strict, as Python `==` is between `str` and `int`. -/
inductive Scalar where
  | snull
  | sint (n : Int)
  | sstr (s : String)
deriving Repr, DecidableEq

/-- A value that the `VALUE` field of a "current app" response can hold:
`null`, a scalar, or a JSON object with scalar fields (a Python dict). -/
inductive JValue where
  | vnull
  | vint (n : Int)
  | vstr (s : String)
  | vobj (fields : List (String × Scalar))
deriving Repr, DecidableEq

/-- A value that the `ITEM` field of a response can hold: `null`, a scalar,
or a JSON object (a Python dict) whose fields are `JValue`s. -/
inductive JItem where
  | inull
  | iint (n : Int)
  | istr (s : String)
  | iobj (fields : List (String × JValue))
deriving Repr, DecidableEq

/-- A top-level device JSON response: a Python dict with string keys. -/
abbrev Response := List (String × JItem)

/-- Python truthiness of a `JValue` (`if current_app_id:` in
`GetCurrentAppConfigCommand.process_response`): `None`, `0`, `""` and the
empty dict are falsy, everything else is truthy. -/
def JValue.truthy : JValue → Bool
  | JValue.vnull => false
  | JValue.vint n => n != 0
  | JValue.vstr s => !s.isEmpty
  | JValue.vobj fields => !fields.isEmpty

/-- Python `str.lower()`, embedded as a structurally recursive map of
`Char.toLower` over the characters of the string (all key names and catalog app
names in this module are ASCII). -/
def lowerString (s : String) : String := String.mk (s.data.map Char.toLower)

/-- Modelled from the spec: `dict_get_case_insensitive` from
`pyvizio.helpers` (the helper module is not under src/).  Per the spec it is
"an explicit case-insensitive key-matching helper over a string-keyed
mapping" returning a default when no key matches; embedded polymorphically
over the stratified value types. -/
def dict_get_case_insensitive {α : Type} (in_dict : List (String × α))
    (key : String) (default_return : α) : α :=
  match in_dict.find? (fun kv => lowerString kv.1 == lowerString key) with
  | some kv => kv.2
  | none => default_return

/-- Embeds `AppConfig` (`apps.py` lines 12-26): the tuple (`APP_ID`, `NAME_SPACE`,
`MESSAGE`), each field defaulting to `None`.  Fields hold whatever scalar
the device response supplied, so they are `Scalar`-typed here. -/
structure AppConfig where
  APP_ID : Scalar
  NAME_SPACE : Scalar
  MESSAGE : Scalar
deriving Repr, DecidableEq

/-- The value `AppConfig()` with all three constructor defaults (`None`). -/
def AppConfig.default : AppConfig :=
  { APP_ID := Scalar.snull, NAME_SPACE := Scalar.snull, MESSAGE := Scalar.snull }

/-- The `__dict__` of an `AppConfig` instance: its three attributes as a
string-keyed mapping. -/
def AppConfig.attrDict (a : AppConfig) : List (String × Scalar) :=
  [("APP_ID", a.APP_ID), ("NAME_SPACE", a.NAME_SPACE), ("MESSAGE", a.MESSAGE)]

/-- Embeds `AppConfig.__eq__` (`apps.py` lines 25-26):
`self is other or self.__dict__ == other.__dict__`.  Object identity
(`self is other`) implies `__dict__` equality, so the embedding keeps only
the `__dict__` comparison. -/
def AppConfig.pyEq (a b : AppConfig) : Bool :=
  a.attrDict == b.attrDict

/-- Embeds `AppConfig(**kwargs)` for a string-keyed dict `kwargs` (`apps.py` line
76): Python binds keyword arguments case-sensitively to the parameters
`APP_ID`, `NAME_SPACE`, `MESSAGE`; any other key raises `TypeError`
(unexpected keyword argument), and a missing key gets the default `None`. -/
def appConfigOfKwargs (kwargs : List (String × Scalar)) : Except PyErr AppConfig :=
  if kwargs.all (fun kv => kv.1 == "APP_ID" || kv.1 == "NAME_SPACE" || kv.1 == "MESSAGE") then
    Except.ok
      { APP_ID := ((kwargs.find? (fun kv => kv.1 == "APP_ID")).map Prod.snd).getD Scalar.snull
        NAME_SPACE := ((kwargs.find? (fun kv => kv.1 == "NAME_SPACE")).map Prod.snd).getD Scalar.snull
        MESSAGE := ((kwargs.find? (fun kv => kv.1 == "MESSAGE")).map Prod.snd).getD Scalar.snull }
  else
    Except.error PyErr.typeError

/-- An app definition from the static catalog tables (`APP_HOME` / `APPS`,
`apps.py` lines 112-337): name, regional availability, optional catalog id
(the `APP_HOME` entry has no `"id"` key), and the launch config. -/
structure AppDef where
  name : String
  country : List String
  id : Option String
  config : AppConfig
deriving Repr, DecidableEq

/-- Builds one `APPS` entry; every `APPS` entry has a string `APP_ID`, an
integer `NAME_SPACE`, and a `MESSAGE` that is a string or `None`. -/
def appEntry (name : String) (country : List String) (catId : String)
    (ns : Int) (appId : String) (msg : Option String) : AppDef :=
  { name := name, country := country, id := some catId,
    config :=
      { APP_ID := Scalar.sstr appId, NAME_SPACE := Scalar.sint ns,
        MESSAGE := match msg with | some s => Scalar.sstr s | none => Scalar.snull } }

/-- Embeds `APP_HOME` (`apps.py` lines 112-122). -/
def APP_HOME : List AppDef :=
  [{ name := "SmartCast Home", country := ["*"], id := none,
     config :=
       { APP_ID := Scalar.sstr "1", NAME_SPACE := Scalar.sint 4,
         MESSAGE := Scalar.sstr "http://127.0.0.1:12345/scfs/sctv/main.html" } }]

/-- Embeds `APPS` (`apps.py` lines 124-337), in source order. -/
def APPS : List AppDef :=
  [ appEntry "Prime Video" ["*"] "33" 2 "4" none,
    appEntry "CBS All Access" ["usa"] "9" 2 "37" none,
    appEntry "CBS News" ["usa", "can"] "56" 2 "42" none,
    appEntry "Crackle" ["usa"] "8" 2 "5" none,
    appEntry "Curiosity Stream" ["usa", "can"] "37" 2 "12" none,
    appEntry "Fandango Now" ["usa"] "24" 2 "7" none,
    appEntry "FilmRise" ["usa"] "47" 2 "24" none,
    appEntry "Flixfling" ["*"] "49" 2 "36" none,
    appEntry "Haystack TV" ["usa", "can"] "35" 0 "898AF734"
      (some "\x7b\"CAST_NAMESPACE\":\"urn:x-cast:com.google.cast.media\",\"CAST_MESSAGE\":\x7b\"type\":\"LOAD\",\"media\":\x7b\x7d,\"autoplay\":true,\"currentTime\":0,\"customData\":\x7b\"platform\":\"sctv\"\x7d\x7d\x7d"),
    appEntry "Hulu" ["usa"] "19" 2 "3" none,
    appEntry "iHeartRadio" ["usa"] "11" 2 "6" none,
    appEntry "NBC" ["usa"] "43" 2 "10" none,
    appEntry "Netflix" ["*"] "34" 3 "1" none,
    appEntry "Plex" ["usa", "can"] "40" 2 "9" none,
    appEntry "Pluto TV" ["usa"] "12" 0 "E6F74C01"
      (some "\x7b\"CAST_NAMESPACE\":\"urn:x-cast:tv.pluto\",\"CAST_MESSAGE\":\x7b\"command\":\"initializePlayback\",\"channel\":\"\",\"episode\":\"\",\"time\":0\x7d\x7d"),
    appEntry "RedBox" ["usa"] "55" 2 "41" none,
    appEntry "TasteIt" ["*"] "52" 2 "26" none,
    appEntry "Toon Goggles" ["usa", "can"] "46" 2 "21" none,
    appEntry "Vudu" ["usa"] "6" 2 "21"
      (some "https://my.vudu.com/castReceiver/index.html?launch-source=app-icon"),
    appEntry "XUMO" ["usa"] "27" 0 "36E1EA1F"
      (some "\x7b\"CAST_NAMESPACE\":\"urn:x-cast:com.google.cast.media\",\"CAST_MESSAGE\":\x7b\"type\":\"LOAD\",\"media\":\x7b\x7d,\"autoplay\":true,\"currentTime\":0,\"customData\":\x7b\x7d\x7d\x7d"),
    appEntry "YouTubeTV" ["usa", "mexico"] "45" 5 "3" none,
    appEntry "YouTube" ["*"] "44" 5 "1" none,
    appEntry "Baeble" ["usa"] "39" 2 "11" none,
    appEntry "DAZN" ["usa", "can"] "57" 2 "34" none,
    appEntry "FitFusion by Jillian Michaels" ["usa", "can"] "54" 2 "39" none,
    appEntry "Newsy" ["usa", "can"] "38" 2 "15" none,
    appEntry "Cocoro TV" ["usa", "can"] "63" 2 "55" none,
    appEntry "ConTV" ["usa", "can"] "41" 2 "18" none,
    appEntry "Dove Channel" ["usa", "can"] "42" 2 "16" none,
    appEntry "Love Destination" ["*"] "64" 2 "57" none,
    appEntry "WatchFree" ["usa"] "48" 2 "22" none,
    appEntry "AsianCrush" ["usa", "can"] "50" 2 "27"
      (some "https://html5.asiancrush.com/?ua=viziosmartcast") ]

/-- The full catalog in lookup order, `APP_HOME + APPS` as iterated by both
`LaunchAppNameCommand.__init__` and `GetCurrentAppNameCommand.process_response`. -/
def catalog : List AppDef := APP_HOME ++ APPS

/-- Embeds `AppCatalog.findByName`: the generator expression in
`LaunchAppNameCommand.__init__` (`apps.py` lines 48-55) — the first entry of
`APP_HOME + APPS` whose `"name"` matches case-insensitively, or none (the
fallback `dict()` of the source). -/
def findByName (app_name : String) : Option AppDef :=
  catalog.find? (fun app_def => lowerString app_def.name == lowerString app_name)

/-- Embeds `AppCatalog.findByConfig`: the generator expression in
`GetCurrentAppNameCommand.process_response` (`apps.py` lines 95-103) — the
first entry of `APP_HOME + APPS` whose config matches on `APP_ID` and
`NAME_SPACE` (the `MESSAGE` field is not compared), or none. -/
def findByConfig (appId ns : Scalar) : Option AppDef :=
  catalog.find? (fun app_def =>
    app_def.config.APP_ID == appId && app_def.config.NAME_SPACE == ns)

/-- Modelled from the spec: `ENDPOINT[device_type]["LAUNCH_APP"]` resolution
(`pyvizio._api._protocol`, not under src/) is an external "endpoint
resolver" collaborator mapping a device type to its launch-app endpoint;
embedded as a tag carrying the device type. -/
structure LaunchEndpoint where
  device_type : String
deriving Repr, DecidableEq

/-- Embeds `LaunchAppConfigCommand` (`apps.py` lines 29-40): the launch request,
bound to the device-type-specific endpoint and carrying
`VALUE = AppConfig(APP_ID, NAME_SPACE, MESSAGE)`. -/
structure LaunchAppConfigCommand where
  endpoint : LaunchEndpoint
  VALUE : AppConfig
deriving Repr, DecidableEq

/-- Embeds `LaunchAppConfigCommand(device_type, **kwargs)` as called from
`LaunchAppNameCommand.__init__` (`apps.py` lines 58-60).  The unpacked dict
is either a full catalog config (all three keys) or the empty fallback
`dict()`; `APP_ID` and `NAME_SPACE` have no defaults in
`LaunchAppConfigCommand.__init__`, so the empty dict raises `TypeError`
(missing required positional arguments). -/
def launchAppConfigCommand (device_type : String) :
    Option AppConfig → Except PyErr LaunchAppConfigCommand
  | some cfg => Except.ok { endpoint := { device_type := device_type }, VALUE := cfg }
  | none => Except.error PyErr.typeError

/-- Embeds `LaunchAppNameCommand(device_type, app_name)` (`apps.py` lines 43-60):
resolve the name against `APP_HOME + APPS` (case-insensitively); unpack the
`"config"` dict of the found entry — or the fallback empty dict — into
`LaunchAppConfigCommand`. -/
def launchAppNameCommand (device_type app_name : String) :
    Except PyErr LaunchAppConfigCommand :=
  launchAppConfigCommand device_type ((findByName app_name).map AppDef.config)

/-- Modelled from the spec: the `NO_APP_RUNNING` sentinel from
`pyvizio.const` (not under src/) — a fixed string meaning no app is
currently running, distinct from `UNKNOWN_APP`. -/
def NO_APP_RUNNING : String := "No App Running"

/-- Modelled from the spec: the `UNKNOWN_APP` sentinel from `pyvizio.const`
(not under src/) — a fixed string meaning an app is running but its name is
not in the catalog, distinct from `NO_APP_RUNNING`. -/
def UNKNOWN_APP : String := "Unknown App"

/-- The tail of `GetCurrentAppConfigCommand.process_response` (`apps.py`
lines 75-78): `if current_app_id: return AppConfig(**current_app_id)`
(a `TypeError` when the truthy value is not a mapping), `return AppConfig()`
otherwise. -/
def parseCurrentValue (current_app_id : JValue) : Except PyErr AppConfig :=
  if current_app_id.truthy then
    match current_app_id with
    | JValue.vobj fields => appConfigOfKwargs fields
    | _ => Except.error PyErr.typeError
  else Except.ok AppConfig.default

/-- The two `dict_get_case_insensitive` extractions of
`GetCurrentAppConfigCommand.process_response` (`apps.py` lines 70-78):
`item = dict_get_case_insensitive(json_obj, "ITEM", {})`, then
`current_app_id = dict_get_case_insensitive(item, "VALUE")`, then
`parseCurrentValue`.  Extracting `VALUE` from a non-dict `item` raises
`AttributeError` (`.items()` on a non-mapping). -/
def getCurrentAppConfig (json_obj : Response) : Except PyErr AppConfig :=
  match dict_get_case_insensitive json_obj "ITEM" (JItem.iobj []) with
  | JItem.iobj item => parseCurrentValue (dict_get_case_insensitive item "VALUE" JValue.vnull)
  | _ => Except.error PyErr.attributeError

/-- Embeds `GetCurrentAppNameCommand.process_response` (`apps.py` lines 88-109):
parse the config; if it differs from `AppConfig()` (Python `!=`, i.e. the
negation of `AppConfig.__eq__`), look it up in `APP_HOME + APPS` and return
the `"name"` of the entry — `UNKNOWN_APP` when the fallback `dict()` has no
`"name"` key; otherwise return `NO_APP_RUNNING`. -/
def getCurrentAppName (json_obj : Response) : Except PyErr String := do
  let current_app_config ← getCurrentAppConfig json_obj
  if AppConfig.pyEq current_app_config AppConfig.default then
    return NO_APP_RUNNING
  else
    match findByConfig current_app_config.APP_ID current_app_config.NAME_SPACE with
    | some app_def => return app_def.name
    | none => return UNKNOWN_APP

/-- Whether an app name matches no catalog entry case-insensitively. -/
def matchesNoEntry (app_name : String) : Bool :=
  catalog.all (fun app_def => lowerString app_def.name != lowerString app_name)

/-- Response `\x7b"ITEM": \x7b"VALUE": null\x7d\x7d`. -/
def nullValueResponse : Response := [("ITEM", JItem.iobj [("VALUE", JValue.vnull)])]

/-- Response `\x7b"ITEM": \x7b"VALUE": \x7b"APP_ID": "1", "NAME_SPACE": 3\x7d\x7d\x7d` — the Netflix config. -/
def netflixResponse : Response :=
  [("ITEM", JItem.iobj
    [("VALUE", JValue.vobj [("APP_ID", Scalar.sstr "1"), ("NAME_SPACE", Scalar.sint 3)])])]

/-- Response carrying config `APP_ID="999"`, `NAME_SPACE=99`, not in the catalog. -/
def unknownConfigResponse : Response :=
  [("ITEM", JItem.iobj
    [("VALUE", JValue.vobj [("APP_ID", Scalar.sstr "999"), ("NAME_SPACE", Scalar.sint 99)])])]

/-- Response whose `VALUE` object carries the config fields under lowercase
key names: `\x7b"ITEM": \x7b"VALUE": \x7b"app_id": "1", "name_space": 3, "message": null\x7d\x7d\x7d`. -/
def lowercaseFieldsResponse : Response :=
  [("ITEM", JItem.iobj
    [("VALUE", JValue.vobj
      [("app_id", Scalar.sstr "1"), ("name_space", Scalar.sint 3), ("message", Scalar.snull)])])]

/-- Response whose `VALUE` object carries a key that is not a constructor
parameter of `AppConfig`: `\x7b"ITEM": \x7b"VALUE": \x7b"BOGUS": null\x7d\x7d\x7d`. -/
def bogusKeyResponse : Response :=
  [("ITEM", JItem.iobj [("VALUE", JValue.vobj [("BOGUS", Scalar.snull)])])]

/-- Response carrying the Netflix `APP_ID` with the `NAME_SPACE` as the
string `"3"` instead of the integer `3`. -/
def stringNamespaceResponse : Response :=
  [("ITEM", JItem.iobj
    [("VALUE", JValue.vobj [("APP_ID", Scalar.sstr "1"), ("NAME_SPACE", Scalar.sstr "3")])])]

/-- The Netflix entry of `APPS`. -/
def netflixEntry : AppDef := appEntry "Netflix" ["*"] "34" 3 "1" none

/-- The reverse-lookup key of a catalog entry: the (`APP_ID`,
`NAME_SPACE`) pair; `MESSAGE` is not part of the key. -/
def cfgKey (app_def : AppDef) : Scalar × Scalar :=
  (app_def.config.APP_ID, app_def.config.NAME_SPACE)

/-- Whether a scalar is an integer. -/
def Scalar.isInt : Scalar → Bool
  | Scalar.sint _ => true
  | _ => false

/-- Lemma: `List.find?` on a member-containing list splits the list at the first
match: there are a prefix of non-matches, the found element, and a
suffix. -/
theorem find_first_split {α : Type} (p : α → Bool) (l : List α) (x : α)
    (hx : x ∈ l) (hpx : p x = true) :
    ∃ F l₁ l₂, l.find? p = some F ∧ l = l₁ ++ F :: l₂ ∧ p F = true ∧
      ∀ G ∈ l₁, p G = false := by
  induction l with
  | nil => cases hx
  | cons a t ih =>
    cases ha : p a with
    | true =>
      refine ⟨a, [], t, ?_, rfl, ha, ?_⟩
      · simp [List.find?, ha]
      · intro G hG; cases hG
    | false =>
      have hx' : x ∈ t := by
        cases hx with
        | head => rw [hpx] at ha; cases ha
        | tail _ h => exact h
      obtain ⟨F, l₁, l₂, hfind, heq, hpF, hall⟩ := ih hx'
      refine ⟨F, a :: l₁, l₂, ?_, by rw [heq, List.cons_append], hpF, ?_⟩
      · simp [List.find?, ha, hfind]
      · intro G hG
        cases hG with
        | head => exact ha
        | tail _ h => exact hall G h

/-- Lemma: `List.find?` returns none when every element fails the predicate. -/
theorem find_none_of_all_false {α : Type} (p : α → Bool) (l : List α)
    (h : ∀ G ∈ l, p G = false) : l.find? p = none := by
  induction l with
  | nil => rfl
  | cons a t ih =>
    have ha : p a = false := h a (List.mem_cons_self a t)
    simp only [List.find?, ha]
    exact ih (fun G hG => h G (List.mem_cons_of_mem a hG))

/-- Unfolding `getCurrentAppConfig` when the extracted `ITEM` field is an
object. -/
theorem getCurrentAppConfig_iobj (json_obj : Response) (item : List (String × JValue))
    (hItem : dict_get_case_insensitive json_obj "ITEM" (JItem.iobj []) = JItem.iobj item) :
    getCurrentAppConfig json_obj
      = parseCurrentValue (dict_get_case_insensitive item "VALUE" JValue.vnull) := by
  unfold getCurrentAppConfig
  rw [hItem]

/-- When the (case-insensitively extracted) `ITEM` field is an object and
its `VALUE` field is falsy, `process_response` returns the default
`AppConfig` without raising. -/
theorem getCurrentAppConfig_falsy (json_obj : Response) (item : List (String × JValue))
    (hItem : dict_get_case_insensitive json_obj "ITEM" (JItem.iobj []) = JItem.iobj item)
    (hFalsy : JValue.truthy (dict_get_case_insensitive item "VALUE" JValue.vnull) = false) :
    getCurrentAppConfig json_obj = Except.ok AppConfig.default := by
  rw [getCurrentAppConfig_iobj json_obj item hItem]
  unfold parseCurrentValue
  rw [hFalsy]
  simp

/-- Unfolding `getCurrentAppName` when config parsing succeeds. -/
theorem getCurrentAppName_ok (json_obj : Response) (cfg : AppConfig)
    (h : getCurrentAppConfig json_obj = Except.ok cfg) :
    getCurrentAppName json_obj =
      (if AppConfig.pyEq cfg AppConfig.default then Except.ok NO_APP_RUNNING
       else match findByConfig cfg.APP_ID cfg.NAME_SPACE with
            | some app_def => Except.ok app_def.name
            | none => Except.ok UNKNOWN_APP) := by
  unfold getCurrentAppName
  rw [h]
  rfl

/-- C1 (amended): for every app name matching no catalog entry
case-insensitively, constructing `LaunchAppNameCommand(device_type, name)`
raises `TypeError` — the fallback config dict is empty and `APP_ID` and
`NAME_SPACE` are required parameters of `LaunchAppConfigCommand.__init__` —
rather than producing a launch request with an all-null `AppConfig`. -/
theorem c1_launch_unknown_name_raises (device_type app_name : String)
    (h : matchesNoEntry app_name = true) :
    launchAppNameCommand device_type app_name = Except.error PyErr.typeError := by
  have hall : ∀ G ∈ catalog, (lowerString G.name != lowerString app_name) = true := by
    unfold matchesNoEntry at h
    exact List.all_eq_true.mp h
  have hfind : findByName app_name = none := by
    unfold findByName
    apply find_none_of_all_false
    intro G hG
    have hbne := hall G hG
    simp only [bne_iff_ne, ne_eq] at hbne
    exact beq_eq_false_iff_ne.mpr hbne
  unfold launchAppNameCommand
  rw [hfind]
  rfl

/-- C1 witness: a concrete unmatched name raises. -/
theorem c1_launch_unknown_name_raises_witness :
    matchesNoEntry "definitely-not-an-app" = true
    ∧ launchAppNameCommand "soundbar" "definitely-not-an-app" = Except.error PyErr.typeError :=
  ⟨by decide, c1_launch_unknown_name_raises "soundbar" "definitely-not-an-app" (by decide)⟩

/-- C1 counterexample: `"nonexistent-app"` matches no catalog entry, yet
`LaunchAppNameCommand("tv", "nonexistent-app")` raises `TypeError` instead
of succeeding with an embedded all-null `AppConfig`. -/
theorem c1_counterexample :
    matchesNoEntry "nonexistent-app" = true
    ∧ launchAppNameCommand "tv" "nonexistent-app" = Except.error PyErr.typeError
    ∧ launchAppNameCommand "tv" "nonexistent-app"
        ≠ Except.ok { endpoint := { device_type := "tv" }, VALUE := AppConfig.default } := by
  refine ⟨by decide, rfl, ?_⟩
  intro hcontra
  rw [show launchAppNameCommand "tv" "nonexistent-app" = Except.error PyErr.typeError from rfl]
    at hcontra
  exact Except.noConfusion hcontra

/-- C2: when config parsing succeeds, `GetCurrentAppName` classifies into
exactly three outcomes — the default config yields the `NO_APP_RUNNING`
sentinel, a catalog match on (`APP_ID`, `NAME_SPACE`) yields the matching
name, and anything else yields the distinct `UNKNOWN_APP` sentinel; in
particular the Netflix config yields `"Netflix"` and the uncataloged
`APP_ID="999"`/`NAME_SPACE=99` config yields `UNKNOWN_APP`. -/
theorem c2_three_outcome_classification (json_obj : Response) (cfg : AppConfig)
    (h : getCurrentAppConfig json_obj = Except.ok cfg) :
    (AppConfig.pyEq cfg AppConfig.default = true →
      getCurrentAppName json_obj = Except.ok NO_APP_RUNNING)
    ∧ (AppConfig.pyEq cfg AppConfig.default = false →
      (∃ app_def, findByConfig cfg.APP_ID cfg.NAME_SPACE = some app_def
          ∧ getCurrentAppName json_obj = Except.ok app_def.name)
      ∨ (findByConfig cfg.APP_ID cfg.NAME_SPACE = none
          ∧ getCurrentAppName json_obj = Except.ok UNKNOWN_APP))
    ∧ getCurrentAppName netflixResponse = Except.ok "Netflix"
    ∧ getCurrentAppName unknownConfigResponse = Except.ok UNKNOWN_APP
    ∧ getCurrentAppName nullValueResponse = Except.ok NO_APP_RUNNING
    ∧ NO_APP_RUNNING ≠ UNKNOWN_APP := by
  refine ⟨?_, ?_, rfl, rfl, rfl, by decide⟩
  · intro hdef
    rw [getCurrentAppName_ok json_obj cfg h, hdef]
    rfl
  · intro hdef
    rw [getCurrentAppName_ok json_obj cfg h, hdef]
    cases hfind : findByConfig cfg.APP_ID cfg.NAME_SPACE with
    | some app_def => exact Or.inl ⟨app_def, rfl, by simp⟩
    | none => exact Or.inr ⟨rfl, by simp⟩

/-- C2 witness: the Netflix response parses to the Netflix config and the
two sentinels are distinct. -/
theorem c2_three_outcome_classification_witness :
    getCurrentAppConfig netflixResponse
      = Except.ok { APP_ID := Scalar.sstr "1", NAME_SPACE := Scalar.sint 3, MESSAGE := Scalar.snull }
    ∧ NO_APP_RUNNING ≠ UNKNOWN_APP :=
  ⟨rfl, (c2_three_outcome_classification netflixResponse
    { APP_ID := Scalar.sstr "1", NAME_SPACE := Scalar.sint 3, MESSAGE := Scalar.snull }
    rfl).2.2.2.2.2⟩

/-- C4 (amended): `GetCurrentAppConfig` binds the fields of the `VALUE` object to
`AppConfig` case-sensitively, not case-insensitively: a `VALUE` object whose
keys are exactly the uppercase parameter names `APP_ID`, `NAME_SPACE`,
`MESSAGE` binds those values (the `ITEM`/`VALUE` keys themselves remain
case-insensitive), while any other letter-casing of the field keys raises
`TypeError`. -/
theorem c4_exact_case_field_binding (a n m : Scalar) :
    getCurrentAppConfig
        [("ITEM", JItem.iobj [("VALUE",
          JValue.vobj [("APP_ID", a), ("NAME_SPACE", n), ("MESSAGE", m)])])]
      = Except.ok { APP_ID := a, NAME_SPACE := n, MESSAGE := m }
    ∧ getCurrentAppConfig
        [("item", JItem.iobj [("value",
          JValue.vobj [("APP_ID", a), ("NAME_SPACE", n), ("MESSAGE", m)])])]
      = Except.ok { APP_ID := a, NAME_SPACE := n, MESSAGE := m } :=
  ⟨rfl, rfl⟩

/-- C4 counterexample: a response supplying the config fields under
lowercase key names (`app_id`, `name_space`, `message`) raises `TypeError`
instead of binding the field values. -/
theorem c4_counterexample :
    getCurrentAppConfig lowercaseFieldsResponse = Except.error PyErr.typeError
    ∧ getCurrentAppConfig lowercaseFieldsResponse
        ≠ Except.ok { APP_ID := Scalar.sstr "1", NAME_SPACE := Scalar.sint 3, MESSAGE := Scalar.snull } := by
  refine ⟨rfl, ?_⟩
  intro hcontra
  rw [show getCurrentAppConfig lowercaseFieldsResponse = Except.error PyErr.typeError from rfl]
    at hcontra
  exact Except.noConfusion hcontra

/-- C5 (amended): `GetCurrentAppConfig` never raises for missing fields —
whenever the extracted `ITEM` is an object whose extracted `VALUE` is absent
or falsy, it returns the default `AppConfig` — but a truthy `VALUE` that is
not a mapping with exactly the expected keyword names does raise. -/
theorem c5_missing_fields_never_raise (json_obj : Response) (item : List (String × JValue))
    (hItem : dict_get_case_insensitive json_obj "ITEM" (JItem.iobj []) = JItem.iobj item)
    (hFalsy : JValue.truthy (dict_get_case_insensitive item "VALUE" JValue.vnull) = false) :
    getCurrentAppConfig json_obj = Except.ok AppConfig.default :=
  getCurrentAppConfig_falsy json_obj item hItem hFalsy

/-- C5 witness: the empty response (no `ITEM`, hence no `VALUE`) parses to
the default `AppConfig` without raising. -/
theorem c5_missing_fields_never_raise_witness :
    dict_get_case_insensitive ([] : Response) "ITEM" (JItem.iobj []) = JItem.iobj []
    ∧ JValue.truthy (dict_get_case_insensitive ([] : List (String × JValue)) "VALUE" JValue.vnull) = false
    ∧ getCurrentAppConfig [] = Except.ok AppConfig.default :=
  ⟨rfl, rfl, c5_missing_fields_never_raise [] [] rfl rfl⟩

/-- C5 counterexample: a truthy `VALUE` object with a key that is not an
`AppConfig` constructor parameter raises `TypeError`; no `AppConfig` is
returned. -/
theorem c5_counterexample :
    getCurrentAppConfig bogusKeyResponse = Except.error PyErr.typeError
    ∧ (getCurrentAppConfig bogusKeyResponse).isOk = false :=
  ⟨rfl, rfl⟩

/-- C7: `GetCurrentAppConfig` on `\x7b"ITEM": \x7b"VALUE": null\x7d\x7d` returns the
all-null default `AppConfig`; on the Netflix response it returns
`AppConfig(appId="1", nameSpace=3, message=null)`; and the `ITEM`/`VALUE`
keys are matched case-insensitively. -/
theorem c7_item_value_extraction :
    getCurrentAppConfig nullValueResponse = Except.ok AppConfig.default
    ∧ getCurrentAppConfig netflixResponse
        = Except.ok { APP_ID := Scalar.sstr "1", NAME_SPACE := Scalar.sint 3, MESSAGE := Scalar.snull }
    ∧ getCurrentAppConfig [("item", JItem.iobj [("Value", JValue.vnull)])]
        = Except.ok AppConfig.default
    ∧ getCurrentAppConfig
        [("iTeM", JItem.iobj [("vAlUe",
          JValue.vobj [("APP_ID", Scalar.sstr "1"), ("NAME_SPACE", Scalar.sint 3)])])]
        = Except.ok { APP_ID := Scalar.sstr "1", NAME_SPACE := Scalar.sint 3, MESSAGE := Scalar.snull } :=
  ⟨rfl, rfl, rfl, rfl⟩

/-- C8: `AppConfig.__eq__` is structural — two configs compare equal exactly
when all three fields (`APP_ID`, `NAME_SPACE`, `MESSAGE`) are pairwise
equal, i.e. exactly when the values are equal, independent of object
identity. -/
theorem c8_structural_equality (a b : AppConfig) :
    (AppConfig.pyEq a b = true
      ↔ (a.APP_ID = b.APP_ID ∧ a.NAME_SPACE = b.NAME_SPACE ∧ a.MESSAGE = b.MESSAGE))
    ∧ (AppConfig.pyEq a b = true ↔ a = b) := by
  cases a with | mk a1 a2 a3 =>
  cases b with | mk b1 b2 b3 =>
  constructor
  · simp [AppConfig.pyEq, AppConfig.attrDict, beq_iff_eq]
  · simp [AppConfig.pyEq, AppConfig.attrDict, beq_iff_eq, AppConfig.mk.injEq]

/-- C8 witness: structural equality at concrete configs — equal fields give
`pyEq` true, and `pyEq` relates the Netflix config to itself but not to the
default. -/
theorem c8_structural_equality_witness :
    (AppConfig.pyEq { APP_ID := Scalar.sstr "1", NAME_SPACE := Scalar.sint 3, MESSAGE := Scalar.snull }
        { APP_ID := Scalar.sstr "1", NAME_SPACE := Scalar.sint 3, MESSAGE := Scalar.snull } = true
      ↔ (Scalar.sstr "1" = Scalar.sstr "1" ∧ Scalar.sint 3 = Scalar.sint 3 ∧ Scalar.snull = Scalar.snull))
    ∧ (AppConfig.pyEq { APP_ID := Scalar.sstr "1", NAME_SPACE := Scalar.sint 3, MESSAGE := Scalar.snull }
        { APP_ID := Scalar.sstr "1", NAME_SPACE := Scalar.sint 3, MESSAGE := Scalar.snull } = true
      ↔ { APP_ID := Scalar.sstr "1", NAME_SPACE := Scalar.sint 3, MESSAGE := Scalar.snull }
          = ({ APP_ID := Scalar.sstr "1", NAME_SPACE := Scalar.sint 3, MESSAGE := Scalar.snull } : AppConfig)) :=
  c8_structural_equality
    { APP_ID := Scalar.sstr "1", NAME_SPACE := Scalar.sint 3, MESSAGE := Scalar.snull }
    { APP_ID := Scalar.sstr "1", NAME_SPACE := Scalar.sint 3, MESSAGE := Scalar.snull }

/-- C9: the `VALUE` sub-field is tested by truthiness, not presence — every
response whose extracted `VALUE` is present but falsy (in particular the
empty object `\x7b\x7d`) yields the default `AppConfig`, exactly as when `VALUE`
is absent. -/
theorem c9_value_truthiness (v : JValue) (h : JValue.truthy v = false) :
    getCurrentAppConfig [("ITEM", JItem.iobj [("VALUE", v)])] = Except.ok AppConfig.default
    ∧ getCurrentAppConfig [("ITEM", JItem.iobj [("VALUE", JValue.vobj [])])]
        = Except.ok AppConfig.default
    ∧ getCurrentAppConfig [("ITEM", JItem.iobj [])] = Except.ok AppConfig.default := by
  refine ⟨?_, rfl, rfl⟩
  exact getCurrentAppConfig_falsy _ [("VALUE", v)] rfl h

/-- C9 witness: the empty `VALUE` object is falsy and yields the default
config, as when `VALUE` is absent. -/
theorem c9_value_truthiness_witness :
    JValue.truthy (JValue.vobj []) = false
    ∧ (getCurrentAppConfig [("ITEM", JItem.iobj [("VALUE", JValue.vobj [])])]
        = Except.ok AppConfig.default
      ∧ getCurrentAppConfig [("ITEM", JItem.iobj [("VALUE", JValue.vobj [])])]
          = Except.ok AppConfig.default
      ∧ getCurrentAppConfig [("ITEM", JItem.iobj [])] = Except.ok AppConfig.default) :=
  ⟨rfl, c9_value_truthiness (JValue.vobj []) rfl⟩

/-- C10: the reverse catalog match is type-strict — a string `NAME_SPACE`
never matches any catalog entry (all catalog namespaces are integers), so
the Netflix `APP_ID` with the string `"3"` namespace yields `UNKNOWN_APP`
while the integer `3` yields `"Netflix"`. -/
theorem c10_type_strict_reverse_match (appId : Scalar) (s : String) :
    findByConfig appId (Scalar.sstr s) = none
    ∧ getCurrentAppName stringNamespaceResponse = Except.ok UNKNOWN_APP
    ∧ (findByConfig (Scalar.sstr "1") (Scalar.sint 3)).map AppDef.name = some "Netflix" := by
  refine ⟨?_, rfl, rfl⟩
  have hints : ∀ G ∈ catalog, Scalar.isInt G.config.NAME_SPACE = true := by decide
  unfold findByConfig
  apply find_none_of_all_false
  intro G hG
  show (G.config.APP_ID == appId && G.config.NAME_SPACE == Scalar.sstr s) = false
  have hns := hints G hG
  cases hnsv : G.config.NAME_SPACE with
  | sint k =>
    have h2 : (G.config.NAME_SPACE == Scalar.sstr s) = false := by
      rw [hnsv]
      exact beq_eq_false_iff_ne.mpr (fun hco => Scalar.noConfusion hco)
    simp [h2]
  | snull => rw [hnsv] at hns; simp [Scalar.isInt] at hns
  | sstr t => rw [hnsv] at hns; simp [Scalar.isInt] at hns

/-- C10 witness: instantiated at the Netflix `APP_ID` and a concrete string
namespace. -/
theorem c10_type_strict_reverse_match_witness :
    findByConfig (Scalar.sstr "1") (Scalar.sstr "3") = none
    ∧ getCurrentAppName stringNamespaceResponse = Except.ok UNKNOWN_APP
    ∧ (findByConfig (Scalar.sstr "1") (Scalar.sint 3)).map AppDef.name = some "Netflix" :=
  c10_type_strict_reverse_match (Scalar.sstr "1") "3"

/-- C3: reverse lookup round-trips deterministically — for every catalog
entry `E`, `findByConfig` on the (`APP_ID`, `NAME_SPACE`) pair of `E` returns the
first entry in `APP_HOME + APPS` order sharing that pair (the `MESSAGE`
field is not part of the key), and for the duplicated pair
(`"21"`, `2`) shared by "Toon Goggles" (position 18) and "Vudu"
(position 19) it returns the earlier "Toon Goggles". -/
theorem c3_reverse_lookup_first (E : AppDef) (hE : E ∈ catalog) :
    (∃ F l₁ l₂, findByConfig E.config.APP_ID E.config.NAME_SPACE = some F
      ∧ catalog = l₁ ++ F :: l₂
      ∧ cfgKey F = cfgKey E
      ∧ ∀ G ∈ l₁, cfgKey G ≠ cfgKey E)
    ∧ (findByConfig (Scalar.sstr "21") (Scalar.sint 2)).map AppDef.name = some "Toon Goggles"
    ∧ (catalog.get? 18).map (fun d => (d.name, cfgKey d))
        = some ("Toon Goggles", Scalar.sstr "21", Scalar.sint 2)
    ∧ (catalog.get? 19).map (fun d => (d.name, cfgKey d))
        = some ("Vudu", Scalar.sstr "21", Scalar.sint 2) := by
  refine ⟨?_, rfl, rfl, rfl⟩
  have hpx : (E.config.APP_ID == E.config.APP_ID
      && E.config.NAME_SPACE == E.config.NAME_SPACE) = true := by simp
  obtain ⟨F, l₁, l₂, hfind, heq, hpF, hall⟩ :=
    find_first_split (fun app_def => app_def.config.APP_ID == E.config.APP_ID
      && app_def.config.NAME_SPACE == E.config.NAME_SPACE) catalog E hE hpx
  refine ⟨F, l₁, l₂, hfind, heq, ?_, ?_⟩
  · simp only [Bool.and_eq_true, beq_iff_eq] at hpF
    simp [cfgKey, hpF.1, hpF.2]
  · intro G hG hco
    have hfalse := hall G hG
    have htrue : (G.config.APP_ID == E.config.APP_ID
        && G.config.NAME_SPACE == E.config.NAME_SPACE) = true := by
      have h1 : G.config.APP_ID = E.config.APP_ID := congrArg Prod.fst hco
      have h2 : G.config.NAME_SPACE = E.config.NAME_SPACE := congrArg Prod.snd hco
      simp [h1, h2]
    rw [htrue] at hfalse
    cases hfalse

/-- C3 witness: instantiated at the Netflix entry. -/
theorem c3_reverse_lookup_first_witness :
    netflixEntry ∈ catalog
    ∧ ((∃ F l₁ l₂, findByConfig netflixEntry.config.APP_ID netflixEntry.config.NAME_SPACE = some F
        ∧ catalog = l₁ ++ F :: l₂
        ∧ cfgKey F = cfgKey netflixEntry
        ∧ ∀ G ∈ l₁, cfgKey G ≠ cfgKey netflixEntry)
      ∧ (findByConfig (Scalar.sstr "21") (Scalar.sint 2)).map AppDef.name = some "Toon Goggles"
      ∧ (catalog.get? 18).map (fun d => (d.name, cfgKey d))
          = some ("Toon Goggles", Scalar.sstr "21", Scalar.sint 2)
      ∧ (catalog.get? 19).map (fun d => (d.name, cfgKey d))
          = some ("Vudu", Scalar.sstr "21", Scalar.sint 2)) :=
  ⟨by decide, c3_reverse_lookup_first netflixEntry (by decide)⟩

/-- C6: name resolution is case-insensitive and total over the catalog —
for every catalog entry `E` and every string agreeing with the name of `E` up to
letter case, `findByName` returns `E` itself (catalog names are pairwise
distinct after lowering, so the first match is `E`); an unmatched name
returns none; and `LaunchAppNameCommand("tv", "Netflix")` carries
`AppConfig(appId="1", nameSpace=3, message=null)`. -/
theorem c6_find_by_name_total (s : String) (E : AppDef) (hE : E ∈ catalog)
    (hs : lowerString s = lowerString E.name) :
    findByName s = some E
    ∧ findByName "totally-unknown" = none
    ∧ launchAppNameCommand "tv" "Netflix" = Except.ok
        { endpoint := { device_type := "tv" },
          VALUE := { APP_ID := Scalar.sstr "1", NAME_SPACE := Scalar.sint 3, MESSAGE := Scalar.snull } } := by
  refine ⟨?_, rfl, rfl⟩
  have hnodup : (catalog.map (fun app_def => lowerString app_def.name)).Nodup := by decide
  have hpx : (lowerString E.name == lowerString s) = true := by rw [hs]; simp
  obtain ⟨F, l₁, l₂, hfind, heq, hpF, hall⟩ :=
    find_first_split (fun app_def => lowerString app_def.name == lowerString s) catalog E hE hpx
  have hFmem : F ∈ catalog := by
    rw [heq]
    exact List.mem_append_right _ (List.mem_cons_self F l₂)
  have hFE : F = E :=
    List.inj_on_of_nodup_map hnodup hFmem hE ((beq_iff_eq.mp hpF).trans hs)
  rw [hFE] at hfind
  exact hfind

/-- C6 witness: `"NETFLIX"` (a case permutation of `"Netflix"`) resolves to
the Netflix entry. -/
theorem c6_find_by_name_total_witness :
    netflixEntry ∈ catalog
    ∧ lowerString "NETFLIX" = lowerString netflixEntry.name
    ∧ (findByName "NETFLIX" = some netflixEntry
      ∧ findByName "totally-unknown" = none
      ∧ launchAppNameCommand "tv" "Netflix" = Except.ok
          { endpoint := { device_type := "tv" },
            VALUE := { APP_ID := Scalar.sstr "1", NAME_SPACE := Scalar.sint 3, MESSAGE := Scalar.snull } }) :=
  ⟨by decide, rfl, c6_find_by_name_total "NETFLIX" netflixEntry (by decide) rfl⟩

/-- C4 witness: exact-case binding at the Netflix field values, under both
casings of the `ITEM`/`VALUE` keys. -/
theorem c4_exact_case_field_binding_witness :
    getCurrentAppConfig
        [("ITEM", JItem.iobj [("VALUE",
          JValue.vobj [("APP_ID", Scalar.sstr "1"), ("NAME_SPACE", Scalar.sint 3), ("MESSAGE", Scalar.snull)])])]
      = Except.ok { APP_ID := Scalar.sstr "1", NAME_SPACE := Scalar.sint 3, MESSAGE := Scalar.snull }
    ∧ getCurrentAppConfig
        [("item", JItem.iobj [("value",
          JValue.vobj [("APP_ID", Scalar.sstr "1"), ("NAME_SPACE", Scalar.sint 3), ("MESSAGE", Scalar.snull)])])]
      = Except.ok { APP_ID := Scalar.sstr "1", NAME_SPACE := Scalar.sint 3, MESSAGE := Scalar.snull } :=
  c4_exact_case_field_binding (Scalar.sstr "1") (Scalar.sint 3) Scalar.snull
